import Mathlib

/-!
Verification of the website-monitor dashboard (src/dashboard.py) against its
natural-language specification.  The Python code is shallowly embedded: each
method of `WebsiteMonitor` (and the module-level `main`/`parse_arguments`)
becomes a pure Lean function; external effects (the HTTP request outcome, the
wall clock, the terminal size, the parsed YAML document) become explicit
inputs, and the log sink becomes an explicit list of emitted events.
-/

namespace Dashboard

/-- Outcome of the one outbound `session.get` call inside `check_status`:
either an HTTP response was received (carrying its status code and the
measured elapsed milliseconds), or some exception was raised (timeout, DNS
failure, connection refused, TLS error, ...), carrying `str(e)`. -/
inductive HttpOutcome where
  | response (status_code : Nat) (elapsedMs : ℚ)
  | failure (msg : String)
deriving DecidableEq

/-- The dictionary returned by `check_status`.  `status_code`,
`response_time` and `error_message` are `None` in some branches, hence
`Option`; `response_time` is the float milliseconds value, modelled as `ℚ`. -/
structure ProbeResult where
  timestamp : Nat
  status_code : Option Nat
  response_time : Option ℚ
  is_error : Bool
  error_message : Option String
  is_up : Bool
deriving DecidableEq

/-- Embedding of `WebsiteMonitor.check_status` (dashboard.py lines 86-113).
The network call's outcome is the explicit argument `o`; `t` stands for
`datetime.now()`.  On a response: `is_up = 200 <= status_code < 400`.
On any exception: `is_up = False`, `status_code = None`,
`response_time = None`, `error_message = str(e)`. -/
def check_status (t : Nat) (o : HttpOutcome) : ProbeResult :=
  match o with
  | HttpOutcome.response c ms =>
      { timestamp := t
        status_code := some c
        response_time := some ms
        is_error := false
        error_message := none
        is_up := decide (200 ≤ c ∧ c < 400) }
  | HttpOutcome.failure m =>
      { timestamp := t
        status_code := none
        response_time := none
        is_error := true
        error_message := some m
        is_up := false }

/-- Embedding of `WebsiteMonitor.update_status_history` restricted to one
endpoint's list (dashboard.py lines 115-120): append the new status, then
`pop(0)` once if the length now exceeds `history_size`.  The Python
`history_size` is an `int`, hence `Int` here; the element type is
polymorphic, matching `List[Dict[str, Any]]`. -/
def update_status_history {α : Type} (history_size : Int) (h : List α) (status : α) : List α :=
  let h2 := h ++ [status]
  if (h2.length : Int) > history_size then h2.drop 1 else h2

/-- Embedding of `WebsiteMonitor._initialize_status_history` (dashboard.py
lines 63-65): the per-endpoint history dictionary with every endpoint mapped
to the empty list, in configuration order (Python dicts preserve insertion
order). -/
def _initialize_status_history {α : Type} (websites : List String) : List (String × List α) :=
  websites.map (fun w => (w, []))

/-- One `update_status_history(website, status)` call at the dictionary
level: the entry for `website` is replaced by its updated list, all other
entries are untouched. -/
def record {α : Type} (history_size : Int) (st : List (String × List α))
    (website : String) (status : α) : List (String × List α) :=
  st.map (fun p => if p.1 = website then (p.1, update_status_history history_size p.2 status) else p)

/-- The monitor state reachable by initialising the history for `websites`
and then applying an arbitrary sequence of record operations. -/
def runMonitor {α : Type} (history_size : Int) (websites : List String)
    (ops : List (String × α)) : List (String × List α) :=
  ops.foldl (fun st op => record history_size st op.1 op.2) (_initialize_status_history websites)

/-- A single endpoint's history after recording the results `xs` in order,
starting from the empty history. -/
def runRecords {α : Type} (history_size : Int) (xs : List α) : List α :=
  xs.foldl (update_status_history history_size) []

/-- Log levels of the `logging` module, as used by the monitor. -/
inductive LogLevel where
  | debug
  | info
  | warning
  | error
deriving DecidableEq

/-- The YAML document returned by `yaml.safe_load` on success, restricted to
the keys the monitor reads.  `websites` is the required key; every tunable is
optional (dictionary `.get`), with both naming conventions present. -/
structure ConfigDict where
  websites : List String
  check_interval : Option Int
  refresh_interval_seconds : Option Int
  timeout : Option Int
  timeout_seconds : Option Int
  history_size : Option Int
  max_history_length : Option Int
deriving DecidableEq

/-- The hard-coded fallback configuration built inside `_load_config`'s
`except` branch (dashboard.py line 61). -/
def default_config : ConfigDict :=
  { websites := ["https://www.google.com"]
    check_interval := some 60
    refresh_interval_seconds := none
    timeout := some 10
    timeout_seconds := none
    history_size := some 10
    max_history_length := none }

/-- Embedding of `WebsiteMonitor._load_config` (dashboard.py lines 53-61).
The attempt to open and parse the file is the explicit argument: `Except.ok`
is a successfully parsed document, `Except.error e` is any raised exception
(missing file, YAML syntax error, ...).  Returns the configuration together
with the list of log events emitted (`logger.error` on failure). -/
def _load_config (src : Except String ConfigDict) : ConfigDict × List (LogLevel × String) :=
  match src with
  | Except.ok d => (d, [])
  | Except.error e => (default_config, [(LogLevel.error, "Failed to load config: " ++ e)])

/-- The monitor's configuration-derived state as set up by
`WebsiteMonitor.__init__` (dashboard.py lines 40-51). -/
structure MonitorState where
  websites : List String
  check_interval : Int
  timeout : Int
  history_size : Int
  status_history : List (String × List ProbeResult)
deriving DecidableEq

/-- Embedding of `WebsiteMonitor.__init__` (dashboard.py lines 40-51):
load the configuration (falling back to the default on failure), then read
`websites` and the tunables, supporting both naming conventions via nested
`.get` calls, and initialise the per-endpoint history. -/
def initMonitor (src : Except String ConfigDict) : MonitorState × List (LogLevel × String) :=
  let res := _load_config src
  let config := res.1
  ({ websites := config.websites
     check_interval := config.check_interval.getD (config.refresh_interval_seconds.getD 60)
     timeout := config.timeout.getD (config.timeout_seconds.getD 10)
     history_size := config.history_size.getD (config.max_history_length.getD 10)
     status_history := _initialize_status_history config.websites },
   res.2)

/-- Embedding of `WebsiteMonitor._calculate_visible_websites_count`
(dashboard.py lines 76-84) as a function of the sampled terminal row count:
`available_rows = rows - 5`, then `max(1, available_rows)`. -/
def _calculate_visible_websites_count (rows : Int) : Int :=
  let available_rows := rows - 5
  max 1 available_rows

/-- Python `str(...)` applied to an `Optional[int]`: `None` prints as the
four characters "None". -/
def pyStrOptNat : Option Nat → String
  | none => "None"
  | some c => toString c

/-- Two-decimal formatting of a rational number of milliseconds, the
embedding of the format spec `:.2f` (rounding to the nearest hundredth). -/
def fmt2 (r : ℚ) : String :=
  let cents : Int := ⌊r * 100 + 1 / 2⌋
  let whole : Int := cents / 100
  let frac : Nat := (cents % 100).toNat
  toString whole ++ "." ++ (if frac < 10 then "0" else "") ++ toString frac

/-- The latency cell of a row (dashboard.py line 187):
`f"..." if latest['response_time'] else "N/A"` — Python truthiness, so both
`None` and `0.0` select "N/A". -/
def time_info (rt : Option ℚ) : String :=
  match rt with
  | none => "N/A"
  | some r => if r = 0 then "N/A" else fmt2 r ++ " ms"

/-- One glyph of the history strip (dashboard.py lines 190-193). -/
def glyph (s : ProbeResult) : String :=
  if s.is_up then "[green]●[/green]" else "[red]●[/red]"

/-- The history strip: one glyph per entry, oldest first, joined by
spaces. -/
def history_indicators (ss : List ProbeResult) : String :=
  String.intercalate (" ") (ss.map glyph)

/-- One row of the rendered table: the four arguments of
`table.add_row`. -/
structure Row where
  website : String
  status : String
  latency : String
  history : String
deriving DecidableEq

/-- Rendering of one visible endpoint's row (dashboard.py lines 168-200):
empty history gives the placeholder row; otherwise the latest entry drives
the status and latency cells and the whole history drives the glyph
strip. -/
def render_row (website : String) (statuses : List ProbeResult) : Row :=
  match statuses.getLast? with
  | none =>
      { website := website
        status := "[yellow]No data yet[/yellow]"
        latency := ""
        history := "" }
  | some latest =>
      { website := website
        status :=
          if latest.is_up then
            "[green]UP[/green] (" ++ pyStrOptNat latest.status_code ++ ")"
          else
            "[red]DOWN[/red](" ++ pyStrOptNat latest.status_code ++ ")"
        latency := time_info latest.response_time
        history := history_indicators statuses }

/-- The observable output of one `display_status` call. -/
structure RenderOutput where
  header : String
  showing : String
  separator : String
  tableRows : List Row
deriving DecidableEq

/-- Dictionary lookup `self.status_history[website]` (total here, with `[]`
for a missing key; the monitor only ever looks up existing keys). -/
def lookupHistory (st : List (String × List ProbeResult)) (w : String) : List ProbeResult :=
  match st.find? (fun p => p.1 = w) with
  | some p => p.2
  | none => []

/-- Embedding of `WebsiteMonitor.display_status` (dashboard.py lines
138-206).  External inputs are explicit: `now` is the formatted
`datetime.now()` string and `rows` the sampled terminal row count.  The
visible websites are the first `visible_count` keys of the history
dictionary; the indicator line shows `min(visible_count, total)` of
`total`. -/
def display_status (now : String) (rows : Int) (st : MonitorState) : RenderOutput :=
  let visible_count := _calculate_visible_websites_count rows
  let total_websites : Int := st.websites.length
  let visible_websites := (st.status_history.map Prod.fst).take visible_count.toNat
  { header := "[bold]Website Status Dashboard[/bold] - Last updated: " ++ now
    showing := "Showing " ++ toString (min visible_count total_websites) ++ " of " ++
      toString total_websites ++ " websites - Resize terminal to see more/less"
    separator := String.mk (List.replicate 80 '=')
    tableRows := visible_websites.map (fun w => render_row w (lookupHistory st.status_history w)) }

/-- Embedding of `WebsiteMonitor._has_terminal_size_changed` (dashboard.py
lines 208-214): a pure comparison of the sampled size against the stored
one. -/
def _has_terminal_size_changed (last_size current_size : Int × Int) : Bool :=
  current_size ≠ last_size

/-- What one iteration of the `while True` loop in `WebsiteMonitor.run`
(dashboard.py lines 227-238) does. -/
structure IterResult where
  ran_health_checks : Bool
  displayed : Bool
  new_last_health_check : ℚ
deriving DecidableEq

/-- Embedding of one iteration of the run loop (dashboard.py lines
227-238): if the interval has elapsed since `last_health_check` or the
terminal size changed, the branch runs `run_health_checks()` (issuing one
probe per endpoint), then `display_status()`, and resets
`last_health_check`; otherwise the iteration just sleeps. -/
def run_iteration (check_interval : ℚ) (last_health_check current_time : ℚ)
    (last_size current_size : Int × Int) : IterResult :=
  if current_time - last_health_check ≥ check_interval ∨
      _has_terminal_size_changed last_size current_size then
    { ran_health_checks := true
      displayed := true
      new_last_health_check := current_time }
  else
    { ran_health_checks := false
      displayed := false
      new_last_health_check := last_health_check }

/-- The parsed command-line arguments (dashboard.py lines 247-254):
`--interval`, `--timeout` and `--history-size` are optional `int`s
(`None` when the flag is not supplied). -/
structure Args where
  config : String
  interval : Option Int
  timeout : Option Int
  history_size : Option Int
deriving DecidableEq

/-- Python truthiness of an `Optional[int]`: `None` and `0` are falsy. -/
def pyTruthy : Option Int → Bool
  | none => false
  | some v => decide (v ≠ 0)

/-- One override step of `main` (dashboard.py lines 264-269):
`if args.x: monitor.x = args.x` keeps the current value when the argument
is `None` or `0`, and assigns it otherwise. -/
def applyOverride (cur : Int) (arg : Option Int) : Int :=
  if pyTruthy arg then arg.getD cur else cur

/-- Embedding of the override block of `main` (dashboard.py lines
256-269): the monitor built from the configuration, with each truthy
command-line argument overriding the corresponding field. -/
def mainOverrides (m : MonitorState) (args : Args) : MonitorState :=
  { m with
    check_interval := applyOverride m.check_interval args.interval
    timeout := applyOverride m.timeout args.timeout
    history_size := applyOverride m.history_size args.history_size }

end Dashboard

namespace Dashboard

/- ### Helper lemmas about the bounded history -/

theorem update_status_history_coe {α : Type} (n : Nat) (h : List α) (s : α) :
    update_status_history (n : Int) h s =
      if n < (h ++ [s]).length then (h ++ [s]).drop 1 else h ++ [s] := by
  simp only [update_status_history, gt_iff_lt]
  congr 1
  simp only [eq_iff_iff]
  exact_mod_cast Iff.rfl

theorem update_status_history_length_le {α : Type} (n : Nat) (h : List α) (s : α)
    (hh : h.length ≤ n) : (update_status_history (n : Int) h s).length ≤ n := by
  rw [update_status_history_coe]
  by_cases hc : n < (h ++ [s]).length
  · rw [if_pos hc]
    simp only [List.length_drop, List.length_append, List.length_singleton]
    omega
  · rw [if_neg hc]
    simp only [List.length_append, List.length_singleton] at hc ⊢
    omega

theorem foldl_update_drop {α : Type} (n : Nat) (xs : List α) :
    ∀ h : List α, h.length ≤ n →
      xs.foldl (update_status_history (n : Int)) h = (h ++ xs).drop ((h ++ xs).length - n) := by
  induction xs with
  | nil =>
      intro h hh
      simp only [List.foldl_nil, List.append_nil]
      rw [Nat.sub_eq_zero_of_le hh, List.drop_zero]
  | cons s xs ih =>
      intro h hh
      rw [List.foldl_cons]
      rw [ih (update_status_history (n : Int) h s) (update_status_history_length_le n h s hh)]
      rw [update_status_history_coe]
      by_cases hc : n < (h ++ [s]).length
      · rw [if_pos hc]
        have h1 : ((h ++ [s]).drop 1) ++ xs = ((h ++ [s]) ++ xs).drop 1 :=
          (List.drop_append_of_le_length (by simp)).symm
        have h2 : (h ++ [s]) ++ xs = h ++ (s :: xs) := by simp
        rw [h1, h2, List.drop_drop]
        have h5 : n ≤ h.length := by
          simp only [List.length_append, List.length_singleton] at hc
          omega
        have h3 : 1 + (((h ++ s :: xs).drop 1).length - n) = (h ++ s :: xs).length - n := by
          simp only [List.length_drop, List.length_append, List.length_cons]
          omega
        rw [h3]
      · rw [if_neg hc]
        have h2 : (h ++ [s]) ++ xs = h ++ (s :: xs) := by simp
        rw [h2]

theorem runRecords_eq_drop {α : Type} (n : Nat) (xs : List α) :
    runRecords (n : Int) xs = xs.drop (xs.length - n) := by
  have := foldl_update_drop n xs [] (by simp)
  simpa [runRecords] using this

theorem update_status_history_length_le_int {α : Type} (N : Int) (hN : 0 ≤ N)
    (h : List α) (s : α) (hh : (h.length : Int) ≤ N) :
    ((update_status_history N h s).length : Int) ≤ N := by
  obtain ⟨n, rfl⟩ := Int.eq_ofNat_of_zero_le hN
  have := update_status_history_length_le n h s (by exact_mod_cast hh)
  exact_mod_cast this

theorem record_preserves_bound {α : Type} (N : Int) (hN : 0 ≤ N)
    (st : List (String × List α)) (w : String) (r : α)
    (hst : ∀ p ∈ st, ((p.2.length : Int) ≤ N)) :
    ∀ p ∈ record N st w r, ((p.2.length : Int) ≤ N) := by
  intro p hp
  simp only [record, List.mem_map] at hp
  obtain ⟨q, hq, hpq⟩ := hp
  by_cases hw : q.1 = w
  · rw [if_pos hw] at hpq
    rw [← hpq]
    exact update_status_history_length_le_int N hN q.2 r (hst q hq)
  · rw [if_neg hw] at hpq
    rw [← hpq]
    exact hst q hq

theorem runMonitor_bound {α : Type} (N : Int) (hN : 0 ≤ N)
    (websites : List String) (ops : List (String × α)) :
    ∀ p ∈ runMonitor N websites ops, ((p.2.length : Int) ≤ N) := by
  suffices H : ∀ (st : List (String × List α)),
      (∀ p ∈ st, ((p.2.length : Int) ≤ N)) →
      ∀ p ∈ ops.foldl (fun st op => record N st op.1 op.2) st, ((p.2.length : Int) ≤ N) by
    apply H
    intro p hp
    simp only [_initialize_status_history, List.mem_map] at hp
    obtain ⟨w, _, rfl⟩ := hp
    simpa using hN
  induction ops with
  | nil =>
      intro st hst
      simpa using hst
  | cons op ops ih =>
      intro st hst
      rw [List.foldl_cons]
      exact ih (record N st op.1 op.2) (record_preserves_bound N hN st op.1 op.2 hst)

theorem render_row_website (w : String) (ss : List ProbeResult) :
    (render_row w ss).website = w := by
  unfold render_row
  cases ss.getLast? <;> rfl

/-- A concrete successful probe result used by the witnesses. -/
def probeUp : ProbeResult := check_status 0 (HttpOutcome.response 200 5)

/-- A concrete failed probe result used by the witnesses. -/
def probeDown : ProbeResult := check_status 0 (HttpOutcome.failure ("timeout"))

/-- A concrete probe result whose latency is present but equal to zero. -/
def probeZeroLatency : ProbeResult := check_status 7 (HttpOutcome.response 200 0)

/-- A small concrete monitor state used by the witnesses. -/
def demoState : MonitorState :=
  { websites := ["a", "b"]
    check_interval := 60
    timeout := 10
    history_size := 10
    status_history := [("a", [probeUp]), ("b", [])] }

/-- A parsed argument set that supplies the same value (or absence) for all
three override flags, with the default config path. -/
def argsAll (v : Option Int) : Args :=
  { config := "config.yaml", interval := v, timeout := v, history_size := v }

/- ### Claim theorems -/

/-- Claim C1: if an HTTP response was received, `is_up` is true if and only
if the status code `c` satisfies `200 ≤ c < 400`; on every transport-level
failure (any exception), the result has `is_up = false` and
`status_code = None`. -/
theorem C1_classification :
    (∀ (t c : Nat) (ms : ℚ),
      ((check_status t (HttpOutcome.response c ms)).is_up = true ↔ (200 ≤ c ∧ c < 400)))
    ∧ (∀ (t : Nat) (m : String),
      (check_status t (HttpOutcome.failure m)).is_up = false
      ∧ (check_status t (HttpOutcome.failure m)).status_code = none) := by
  refine ⟨fun t c ms => ?_, fun t m => ⟨rfl, rfl⟩⟩
  simp [check_status]

/-- Claim C5: the probe operation is total over all call outcomes (every
exception is caught), and on every failure mode the returned result has
`is_up = false`, the error message populated with `str(e)`, and the latency
and status code absent (`None`, not zero). -/
theorem C5_probe_failure_result (t : Nat) (m : String) :
    (check_status t (HttpOutcome.failure m)).is_up = false
    ∧ (check_status t (HttpOutcome.failure m)).error_message = some m
    ∧ (check_status t (HttpOutcome.failure m)).response_time = none
    ∧ (check_status t (HttpOutcome.failure m)).status_code = none
    ∧ (check_status t (HttpOutcome.failure m)).is_error = true :=
  ⟨rfl, rfl, rfl, rfl, rfl⟩

/-- Claim C2: in every state reachable from the freshly initialised
per-endpoint history by any sequence of record operations, every endpoint's
history has length at most `history_size`; and recording into a full
non-empty history evicts exactly the oldest entry. -/
theorem C2_history_bounded :
    (∀ (N : Int) (websites : List String) (ops : List (String × ProbeResult))
      (w : String) (h : List ProbeResult),
      0 ≤ N → (w, h) ∈ runMonitor N websites ops → (h.length : Int) ≤ N)
    ∧ (∀ (N : Int) (h : List ProbeResult) (s : ProbeResult),
      (h.length : Int) = N → h ≠ [] →
      update_status_history N h s = h.tail ++ [s]) := by
  constructor
  · intro N websites ops w h hN hmem
    exact runMonitor_bound N hN websites ops (w, h) hmem
  · intro N h s hful hne
    have hlen : ((h ++ [s]).length : Int) > N := by
      simp only [List.length_append, List.length_singleton]
      omega
    unfold update_status_history
    rw [if_pos hlen]
    rw [List.drop_append_of_le_length (by simpa using List.length_pos.mpr hne)]
    rw [List.drop_one]

/-- Witness for C2 at concrete inputs: two records for endpoint "a" with
capacity 1 leave a single entry, and recording into the full history
`[probeUp]` evicts it. -/
theorem C2_history_bounded_witness :
    ((([probeDown] : List ProbeResult).length : Int) ≤ 1)
    ∧ update_status_history 1 [probeUp] probeDown = [probeUp].tail ++ [probeDown] := by
  constructor
  · exact C2_history_bounded.1 1 ["a"] [("a", probeUp), ("a", probeDown)] "a" [probeDown]
      (by decide) (by decide)
  · exact C2_history_bounded.2 1 [probeUp] probeDown (by decide) (by decide)

/-- Claim C3: recording `history_size + k` results (`k ≥ 1`) for one
endpoint, starting from the empty history, leaves exactly the last
`history_size` results in recording order — the oldest are evicted, never
the newest. -/
theorem C3_history_keeps_last (n k : Nat) (xs : List ProbeResult)
    (hlen : xs.length = n + k) (hk : 1 ≤ k) :
    runRecords (n : Int) xs = xs.drop k ∧ (runRecords (n : Int) xs).length = n := by
  have h := runRecords_eq_drop n xs
  constructor
  · rw [h]
    congr 1
    omega
  · rw [h]
    simp only [List.length_drop]
    omega

/-- Witness for C3: with capacity 2 and three recorded results, the history
is exactly the last two of them. -/
theorem C3_history_keeps_last_witness :
    runRecords ((2 : Nat) : Int) [probeUp, probeDown, probeZeroLatency] =
      [probeUp, probeDown, probeZeroLatency].drop 1
    ∧ (runRecords ((2 : Nat) : Int) [probeUp, probeDown, probeZeroLatency]).length = 2 :=
  C3_history_keeps_last 2 1 [probeUp, probeDown, probeZeroLatency] (by decide) (by decide)

/-- Claim C4 counterexample: with check interval 60, last check at time 0,
current time 1 (interval not elapsed) and the terminal size changed from
(80, 24) to (100, 24), the loop iteration does run `run_health_checks`,
i.e. it issues new probes on a resize-only trigger, contradicting the
claim. -/
theorem C4_resize_only_counterexample :
    (run_iteration 60 0 1 (80, 24) (100, 24)).ran_health_checks = true
    ∧ ¬ ((1 : ℚ) - 0 ≥ 60)
    ∧ _has_terminal_size_changed (80, 24) (100, 24) = true := by
  refine ⟨?_, by norm_num, by decide⟩
  unfold run_iteration
  rw [if_pos]
  right
  simp [_has_terminal_size_changed]

/-- Claim C4 (amended): in every run-loop iteration in which the terminal
size has changed but the check interval has not yet elapsed, the loop runs a
full health-check cycle — issuing new probes — re-renders the display, and
resets the last-check timestamp to the current time. -/
theorem C4_resize_triggers_full_cycle (check_interval last_health_check current_time : ℚ)
    (last_size current_size : Int × Int)
    (hnotdue : ¬ (current_time - last_health_check ≥ check_interval))
    (hresized : current_size ≠ last_size) :
    (run_iteration check_interval last_health_check current_time last_size
      current_size).ran_health_checks = true
    ∧ (run_iteration check_interval last_health_check current_time last_size
      current_size).displayed = true
    ∧ (run_iteration check_interval last_health_check current_time last_size
      current_size).new_last_health_check = current_time := by
  have hcond : current_time - last_health_check ≥ check_interval ∨
      (_has_terminal_size_changed last_size current_size : Prop) := by
    right
    simp [_has_terminal_size_changed, hresized]
  unfold run_iteration
  rw [if_pos hcond]
  exact ⟨rfl, rfl, rfl⟩

/-- Witness for C4 (amended) at the same concrete iteration as the
counterexample. -/
theorem C4_resize_triggers_full_cycle_witness :
    (run_iteration 60 0 1 (80, 24) (100, 24)).ran_health_checks = true
    ∧ (run_iteration 60 0 1 (80, 24) (100, 24)).displayed = true
    ∧ (run_iteration 60 0 1 (80, 24) (100, 24)).new_last_health_check = 1 :=
  C4_resize_triggers_full_cycle 60 0 1 (80, 24) (100, 24) (by norm_num) (by decide)

/-- Claim C6: for every terminal row count the visible count is
`max(1, rows - 5)`, hence at least 1; the table shows exactly the first
`min(visible_count, total)` endpoints in configuration order, omitting the
rest; and the indicator line reads "Showing X of Y" with
`X = min(visible_count, Y)`. -/
theorem C6_renderer_visible_selection (now : String) (rows : Int) (st : MonitorState)
    (hkeys : st.status_history.map Prod.fst = st.websites) :
    _calculate_visible_websites_count rows = max 1 (rows - 5)
    ∧ 1 ≤ _calculate_visible_websites_count rows
    ∧ (display_status now rows st).tableRows.map Row.website =
        st.websites.take (_calculate_visible_websites_count rows).toNat
    ∧ (display_status now rows st).tableRows.length =
        min (_calculate_visible_websites_count rows).toNat st.websites.length
    ∧ (display_status now rows st).showing =
        "Showing " ++ toString (min (_calculate_visible_websites_count rows)
            ((st.websites.length : Int)))
          ++ " of " ++ toString ((st.websites.length : Int))
          ++ " websites - Resize terminal to see more/less" := by
  refine ⟨rfl, le_max_left 1 (rows - 5), ?_, ?_, rfl⟩
  · simp only [display_status, List.map_map]
    have hcomp : (Row.website ∘ fun w => render_row w (lookupHistory st.status_history w)) = id :=
      funext fun w => render_row_website w (lookupHistory st.status_history w)
    rw [hcomp, List.map_id, hkeys]
  · have hlen := congrArg List.length hkeys
    simp only [List.length_map] at hlen
    simp only [display_status, List.length_map, List.length_take]
    rw [hlen]

/-- Witness for C6 with two configured endpoints and a 7-row terminal
(visible count 2). -/
theorem C6_renderer_visible_selection_witness :
    _calculate_visible_websites_count 7 = max 1 (7 - 5)
    ∧ 1 ≤ _calculate_visible_websites_count 7
    ∧ (display_status ("t") 7 demoState).tableRows.map Row.website =
        demoState.websites.take (_calculate_visible_websites_count 7).toNat
    ∧ (display_status ("t") 7 demoState).tableRows.length =
        min (_calculate_visible_websites_count 7).toNat demoState.websites.length
    ∧ (display_status ("t") 7 demoState).showing =
        "Showing " ++ toString (min (_calculate_visible_websites_count 7)
            ((demoState.websites.length : Int)))
          ++ " of " ++ toString ((demoState.websites.length : Int))
          ++ " websites - Resize terminal to see more/less" :=
  C6_renderer_visible_selection ("t") 7 demoState rfl

/-- Claim C7 counterexample: a probe result whose latency is present but
equal to zero renders the latency cell as "N/A", so "N/A" is not shown
exactly when the latency is absent (Python truthiness treats 0.0 like
None). -/
theorem C7_latency_zero_counterexample :
    (render_row ("w") [probeZeroLatency]).latency = "N/A"
    ∧ probeZeroLatency.response_time ≠ none := by
  constructor
  · rfl
  · simp [probeZeroLatency, check_status]

theorem render_row_latency (w : String) (ss : List ProbeResult) (latest : ProbeResult)
    (hl : ss.getLast? = some latest) :
    (render_row w ss).latency = time_info latest.response_time := by
  unfold render_row
  rw [hl]

/-- Claim C7 (amended): for a visible endpoint with non-empty history, the
latency cell shows the latest latency formatted to 2 decimal places when it
is present and nonzero, and shows "N/A" when it is absent or zero (Python
truthiness); an endpoint with no history gets the "No data yet" placeholder
row. -/
theorem C7_latency_cell (w : String) (ss : List ProbeResult) (latest : ProbeResult)
    (hl : ss.getLast? = some latest) :
    (latest.response_time = none → (render_row w ss).latency = "N/A")
    ∧ (latest.response_time = some 0 → (render_row w ss).latency = "N/A")
    ∧ (∀ r : ℚ, latest.response_time = some r → ¬ r = 0 →
        (render_row w ss).latency = fmt2 r ++ " ms")
    ∧ (render_row w []).status = "[yellow]No data yet[/yellow]" := by
  have hcell := render_row_latency w ss latest hl
  refine ⟨fun h => ?_, fun h => ?_, fun r hr hne => ?_, rfl⟩
  · rw [hcell, h]
    rfl
  · rw [hcell, h]
    simp [time_info]
  · rw [hcell, hr]
    simp [time_info, hne]

/-- Witness for C7 (amended): a present nonzero latency of 5 ms renders as
its two-decimal format, and an empty history renders the placeholder. -/
theorem C7_latency_cell_witness :
    (render_row ("w") [probeUp]).latency = fmt2 5 ++ " ms"
    ∧ (render_row ("w") []).status = "[yellow]No data yet[/yellow]" := by
  have h := C7_latency_cell ("w") [probeUp] probeUp rfl
  exact ⟨h.2.2.1 5 rfl (by decide), h.2.2.2⟩

/-- Claim C8 counterexample: the rendered output embeds the current
wall-clock time in its header, so invoking the render operation twice on
the same snapshot and dimensions but at different clock readings produces
different output. -/
theorem C8_render_time_counterexample :
    display_status ("2024-01-01 00:00:00") 24 demoState ≠
      display_status ("2024-01-01 00:00:01") 24 demoState := by
  intro h
  have h2 := congrArg RenderOutput.header h
  have h3 : ("[bold]Website Status Dashboard[/bold] - Last updated: " ++ "2024-01-01 00:00:00") ≠
      ("[bold]Website Status Dashboard[/bold] - Last updated: " ++ "2024-01-01 00:00:01") := by
    decide
  exact h3 h2

/-- Claim C8 (amended): rendering is a pure function of the history
snapshot, the terminal dimensions and the clock reading — every part of the
output except the last-updated header is identical across invocations with
the same snapshot and dimensions, and with the same clock reading the
outputs are fully identical. -/
theorem C8_render_deterministic (t1 t2 : String) (rows : Int) (st : MonitorState) :
    (display_status t1 rows st).showing = (display_status t2 rows st).showing
    ∧ (display_status t1 rows st).separator = (display_status t2 rows st).separator
    ∧ (display_status t1 rows st).tableRows = (display_status t2 rows st).tableRows
    ∧ (t1 = t2 → display_status t1 rows st = display_status t2 rows st) :=
  ⟨rfl, rfl, rfl, fun h => by rw [h]⟩

/-- Witness for C8 (amended) at a concrete snapshot, dimensions and clock
reading. -/
theorem C8_render_deterministic_witness :
    (display_status ("x") 24 demoState).showing = (display_status ("x") 24 demoState).showing
    ∧ (display_status ("x") 24 demoState).separator =
        (display_status ("x") 24 demoState).separator
    ∧ (display_status ("x") 24 demoState).tableRows =
        (display_status ("x") 24 demoState).tableRows
    ∧ display_status ("x") 24 demoState = display_status ("x") 24 demoState := by
  have h := C8_render_deterministic ("x") ("x") 24 demoState
  exact ⟨h.1, h.2.1, h.2.2.1, h.2.2.2 rfl⟩

/-- Claim C9 counterexample: on a configuration load failure the single log
event emitted is at error level, not warning level, refuting the claim's
"logs a warning". -/
theorem C9_fallback_log_level_counterexample :
    ((initMonitor (Except.error ("boom"))).2.map Prod.fst = [LogLevel.error])
    ∧ LogLevel.error ≠ LogLevel.warning :=
  ⟨rfl, by decide⟩

/-- Claim C9 (amended): for every configuration input whose load raises
(missing or unparseable), startup does not fail: the monitor falls back to
the default configuration — single endpoint https://www.google.com, check
interval 60, timeout 10, history size 10 — logs an error-level message, and
proceeds with an initialised empty history. -/
theorem C9_config_fallback (e : String) :
    (initMonitor (Except.error e)).1.websites = ["https://www.google.com"]
    ∧ (initMonitor (Except.error e)).1.check_interval = 60
    ∧ (initMonitor (Except.error e)).1.timeout = 10
    ∧ (initMonitor (Except.error e)).1.history_size = 10
    ∧ (initMonitor (Except.error e)).1.status_history = [("https://www.google.com", [])]
    ∧ (initMonitor (Except.error e)).2 = [(LogLevel.error, "Failed to load config: " ++ e)] :=
  ⟨rfl, rfl, rfl, rfl, rfl, rfl⟩

/-- Claim C10: a CLI override flag supplied with value 0 is silently
ignored (each override is applied only when the parsed argument is truthy),
an absent flag changes nothing, and every nonzero supplied value replaces
the config-derived value. -/
theorem C10_cli_truthy_overrides (m : MonitorState) (v : Int) :
    mainOverrides m (argsAll (some 0)) = m
    ∧ mainOverrides m (argsAll none) = m
    ∧ (¬ v = 0 →
        (mainOverrides m (argsAll (some v))).check_interval = v
        ∧ (mainOverrides m (argsAll (some v))).timeout = v
        ∧ (mainOverrides m (argsAll (some v))).history_size = v) := by
  refine ⟨rfl, rfl, fun hv => ?_⟩
  simp [mainOverrides, applyOverride, pyTruthy, argsAll, hv]

/-- Witness for C10: supplying 7 for each flag replaces all three
config-derived values. -/
theorem C10_cli_truthy_overrides_witness :
    (mainOverrides demoState (argsAll (some 7))).check_interval = 7
    ∧ (mainOverrides demoState (argsAll (some 7))).timeout = 7
    ∧ (mainOverrides demoState (argsAll (some 7))).history_size = 7 := by
  have h := C10_cli_truthy_overrides demoState 7
  exact h.2.2 (by decide)

end Dashboard
